import Mathlib

/-!
Verification development for the ChainMind decision-cycle orchestrator
(`ai-agent/src/engine/DecisionEngine.ts`), its validators
(`ai-agent/src/agent/AIAgent.ts`) and the risk gate
(`ai-agent/src/monitoring/StrategyMonitor.ts`).

The TypeScript code is shallowly embedded: every collaborator call that the
orchestrator awaits (market-data collection, portfolio read, LLM oracle,
on-chain submission) is an input supplied through an environment record, with
`Except JsError` distinguishing a fulfilled promise from a thrown/rejected one.
JavaScript numbers are modelled as `ℚ`, JS string falsiness (both `undefined`
and the empty string are falsy) is modelled explicitly, and the engine's
mutable fields (`decisionHistory`, `isExecuting`) become an explicit state
record threaded through the step function.
-/

namespace ChainMind

/-- A value thrown by JavaScript code: either an `Error` instance carrying a
(possibly empty) `message`, or any non-`Error` value. -/
inductive JsError where
  | errObj (message : String)
  | nonError
  deriving Repr, DecidableEq

/-- The string that `error instanceof Error ? error.message : 'Unknown error'`
produces (the pattern used in `DecisionEngine.executeDecision`). -/
def JsError.toMessage : JsError → String
  | .errObj m => m
  | .nonError => "Unknown error"

/-- JS truthiness of an optional string field: `undefined` and `""` are falsy,
every other string is truthy. -/
def jsTruthy : Option String → Bool
  | none => false
  | some s => !s.isEmpty

/-- Value of a list of decimal digit characters. -/
def digitsVal (l : List Char) : Nat :=
  l.foldl (fun a c => 10 * a + (c.toNat - 48)) 0

/-- Model of JavaScript `parseFloat` on its finite decimal fragment: skip
leading whitespace, read an optional sign, an integer part, an optional
fractional part and an optional exponent, parsing the longest valid numeric
prefix and ignoring trailing garbage. `none` models a `NaN` result (no digits
at all); special forms such as `Infinity` are outside the fragment and also
map to `none`, which keeps every theorem below conditional on the amount
actually parsing to a finite number. -/
def parseFloat? (s : String) : Option ℚ :=
  let cs := s.data.dropWhile (fun c => c = ' ' ∨ c = '\t' ∨ c = '\n' ∨ c = '\r')
  let neg : Bool := cs.head? = some '-'
  let cs := if cs.head? = some '-' ∨ cs.head? = some '+' then cs.tail else cs
  let intPart := cs.takeWhile Char.isDigit
  let rest := cs.dropWhile Char.isDigit
  let fracPart := if rest.head? = some '.' then rest.tail.takeWhile Char.isDigit else []
  if intPart.isEmpty ∧ fracPart.isEmpty then none
  else
    let afterFrac := if rest.head? = some '.' then rest.tail.dropWhile Char.isDigit else rest
    let expVal : ℤ :=
      match afterFrac with
      | 'e' :: t | 'E' :: t =>
        let eneg : Bool := t.head? = some '-'
        let t := if t.head? = some '-' ∨ t.head? = some '+' then t.tail else t
        let eDigits := t.takeWhile Char.isDigit
        if eDigits.isEmpty then 0
        else if eneg then -(digitsVal eDigits : ℤ) else (digitsVal eDigits : ℤ)
      | _ => 0
    let mantissa : ℤ :=
      ((digitsVal intPart * Nat.pow 10 fracPart.length + digitsVal fracPart : ℕ) : ℤ)
    let mantissa := if neg then -mantissa else mantissa
    let e10 : ℤ := expVal - (fracPart.length : ℤ)
    some (if 0 ≤ e10 then mkRat (mantissa * (Nat.pow 10 e10.toNat : ℕ)) 1
          else mkRat mantissa (Nat.pow 10 (-e10).toNat))

/-- Rendering of a JS number inside a template literal, for the integral
values the risk gate interpolates (a gas price such as `150` prints as
`"150"`). -/
def jsNumToString (q : ℚ) : String :=
  if q.den = 1 then toString q.num else toString q

/-- JavaScript `Math.abs` on exact rationals. -/
def jsAbs (q : ℚ) : ℚ := if q < 0 then -q else q

/-- JavaScript `Math.round`, i.e. `⌊q + 1/2⌋`, computed on the numerator and
denominator as `⌊(2·num + den) / (2·den)⌋` so the kernel can evaluate it. -/
def jsRound (q : ℚ) : ℤ := Int.fdiv (2 * q.num + (q.den : ℤ)) (2 * (q.den : ℤ))

/-- `q * 100` written as one `mkRat` so the kernel can evaluate it. -/
def timesHundred (q : ℚ) : ℚ := mkRat (q.num * 100) q.den

/-- JavaScript `Number.prototype.toFixed(2)` on exact rationals: round the
magnitude to two decimal places (`⌊|q|·100 + 1/2⌋`) and print with exactly
two fraction digits. -/
def toFixed2 (q : ℚ) : String :=
  let sgn := if q < 0 then "-" else ""
  let scaled : ℕ := (jsRound (timesHundred (jsAbs q))).toNat
  let ip := scaled / 100
  let fp := scaled % 100
  sgn ++ toString ip ++ "." ++ (if fp < 10 then "0" ++ toString fp else toString fp)

/-- The `RebalanceDecision` interface of `AIAgent.ts`. The chain/token/amount
fields are declared `string` but arrive from `JSON.parse` of the LLM's
function-call arguments, so at runtime they may be absent; they are modelled
as `Option String` (with `jsTruthy` capturing the code's `!field` checks).
`confidence` is a JS number, modelled as `ℚ`. -/
structure RebalanceDecision where
  action : String
  fromChain : Option String := none
  toChain : Option String := none
  token : Option String := none
  amount : Option String := none
  reason : Option String := none
  confidence : ℚ
  targetProtocol : Option String := none
  expectedAPY : Option ℚ := none
  riskLevel : Option String := none
  deriving Repr, DecidableEq

/-- The `ExecutionResult` interface of `DecisionEngine.ts`. -/
structure ExecutionResult where
  decisionId : String
  success : Bool
  transactionHash : Option String := none
  error : Option String := none
  gasUsed : Option ℚ := none
  timestamp : Nat
  deriving Repr, DecidableEq

/-- The opaque `any`-typed market snapshot returned by
`AIAgent.analyzeMarketConditions` and stored as `marketContext`. -/
abbrev MarketSnapshot := String

/-- The opaque portfolio object returned by
`DecisionEngine.getCurrentPortfolio`. -/
abbrev Portfolio := String

/-- The `DecisionRecord` interface of `DecisionEngine.ts`. -/
structure DecisionRecord where
  id : String
  decision : RebalanceDecision
  executionResult : Option ExecutionResult := none
  timestamp : Nat
  marketContext : MarketSnapshot
  deriving Repr, DecidableEq

/-- The result object of `blockchainClient.executeAIDecision` (the opaque
chain write API: `{hash, gasUsed, success, ...}`). -/
structure TxResult where
  success : Bool
  hash : String
  gasUsed : ℚ
  deriving Repr, DecidableEq

/-- The mutable fields of a `DecisionEngine` instance. -/
structure EngineState where
  decisionHistory : List DecisionRecord
  isExecuting : Bool
  deriving Repr, DecidableEq

/-- The outcomes of the collaborator calls one cycle of
`evaluateAndExecute` can make, plus the values of its two impure generators
(`generateDecisionId`, `Date.now()`). An `Except.error` value models the
awaited promise rejecting / throwing. -/
structure CycleEnv where
  marketData : Except JsError MarketSnapshot
  portfolio : Except JsError Portfolio
  oracle : Except JsError (Option RebalanceDecision)
  executorConfigured : Bool
  txOutcome : Except JsError TxResult
  decisionId : String
  now : Nat

/-- Tags for the engine's awaited collaborator calls, in the order the cycle
performs them; used to state that a guarded-out cycle performs none. -/
inductive Call where
  | collect
  | portfolioRead
  | oracleCall
  | submit
  deriving Repr, DecidableEq

/-- Result of one `evaluateAndExecute` invocation: a thrown error, a `null`
return, or an `ExecutionResult`. -/
inductive CycleOutcome where
  | threw (e : JsError)
  | nullResult
  | result (r : ExecutionResult)
  deriving Repr, DecidableEq

/-- `AIAgent.validateRebalanceDecision`: the oracle adapter's own check,
applied before a decision is returned to the engine (a decision failing it is
turned into `null`). The `typeof confidence !== 'number'` test is vacuous in
the typed model. -/
def validateRebalanceDecision (d : RebalanceDecision) : Bool :=
  if d.action.isEmpty || !jsTruthy d.reason then false
  else if d.confidence < 0 ∨ 1 < d.confidence then false
  else if d.action = "rebalance" ∨ d.action = "bridge" then
    if !jsTruthy d.fromChain || !jsTruthy d.toChain || !jsTruthy d.token || !jsTruthy d.amount
    then false else true
  else true

/-- `DecisionEngine.validateDecision`: confidence floor, allowed-action set,
and minimum amount. The amount guard mirrors
`decision.amount && parseFloat(decision.amount) < 100`: it fires only when
the amount is truthy and parses to a number below 100 (`NaN < 100` is false). -/
def validateDecision (d : RebalanceDecision) : Bool :=
  if d.confidence < mkRat 7 10 then false
  else if ¬(["rebalance", "hold", "bridge", "lend", "swap"].contains d.action) then false
  else if jsTruthy d.amount &&
      (match d.amount.bind parseFloat? with
       | some q => decide (q < 100)
       | none => false) then false
  else true

/-- `DecisionEngine.executeDecision`. Returns the `ExecutionResult` together
with whether the on-chain submission call was actually performed ("hold"
returns early, and a missing executor address throws before the call; both
throws are caught by the method's own `catch`, which converts them into a
failed result rather than propagating). -/
def executeDecision (env : CycleEnv) (d : RebalanceDecision) : ExecutionResult × Bool :=
  if d.action = "hold" then
    ({ decisionId := env.decisionId, success := true, timestamp := env.now }, false)
  else if ¬env.executorConfigured then
    ({ decisionId := env.decisionId, success := false,
       error := some "Executor address not configured", timestamp := env.now }, false)
  else
    match env.txOutcome with
    | .error e =>
      ({ decisionId := env.decisionId, success := false,
         error := some e.toMessage, timestamp := env.now }, true)
    | .ok tx =>
      ({ decisionId := env.decisionId, success := tx.success,
         transactionHash := some tx.hash, gasUsed := some tx.gasUsed,
         timestamp := env.now }, true)

/-- The `DecisionRecord` that `DecisionEngine.recordDecision` constructs. -/
def mkRecord (d : RebalanceDecision) (ctx : MarketSnapshot) (er : ExecutionResult) :
    DecisionRecord :=
  { id := er.decisionId, decision := d, executionResult := some er,
    timestamp := er.timestamp, marketContext := ctx }

/-- `DecisionEngine.recordDecision` on the history list: push the new record,
then `slice(-1000)` whenever the length exceeds 1000. -/
def recordDecision (history : List DecisionRecord) (d : RebalanceDecision)
    (ctx : MarketSnapshot) (er : ExecutionResult) : List DecisionRecord :=
  let h := history ++ [mkRecord d ctx er]
  if 1000 < h.length then h.drop (h.length - 1000) else h

/-- `DecisionEngine.getDecisionHistory`: `history.slice(-limit).reverse()`.
For `limit = 0` JavaScript evaluates `slice(-0)`, and since `-0` converts to
`+0`, that is `slice(0)` — a copy of the whole array — so the entire history
is returned newest-first, not an empty list. -/
def getDecisionHistory (history : List DecisionRecord) (limit : Nat) : List DecisionRecord :=
  if limit = 0 then history.reverse
  else (history.drop (history.length - limit)).reverse

/-- The object `DecisionEngine.getStats` returns. `actionCounts` is an
insertion-ordered map, modelled as an association list. -/
structure Stats where
  totalDecisions : Nat
  successfulDecisions : Nat
  successRate : ℚ
  actionCounts : List (String × Nat)
  isExecuting : Bool
  deriving Repr, DecidableEq

/-- One step of the `reduce` in `getStats`:
`counts[action] = (counts[action] || 0) + 1` on an insertion-ordered object. -/
def bumpCount (counts : List (String × Nat)) (a : String) : List (String × Nat) :=
  if counts.any (fun p => p.1 = a) then
    counts.map (fun p => if p.1 = a then (p.1, p.2 + 1) else p)
  else counts ++ [(a, 1)]

/-- `DecisionEngine.getStats`: the success-rate division is guarded by
`totalDecisions > 0 ? ... : 0` and the rate is rounded to two decimals via
`Math.round(rate * 100) / 100`. The exact value
`(succ / total * 100) * 100` equals `succ * 10000 / total` in ℚ, and the
final `/ 100` is a `mkRat`, so the kernel can evaluate the whole record. -/
def getStats (st : EngineState) : Stats :=
  let total := st.decisionHistory.length
  let succ :=
    (st.decisionHistory.filter (fun r => (r.executionResult.map (·.success)).getD false)).length
  let rateTimes100 : ℚ := if 0 < total then mkRat ((succ : ℤ) * 10000) total else 0
  { totalDecisions := total
    successfulDecisions := succ
    successRate := mkRat (jsRound rateTimes100) 100
    actionCounts := st.decisionHistory.foldl (fun c r => bumpCount c r.decision.action) []
    isExecuting := st.isExecuting }

/-- `DecisionEngine.evaluateAndExecute` (the cycle orchestrator, `runCycle()`
in the spec). Returns the outcome, the post-state, and the list of
collaborator calls performed. The entry guard returns `null` leaving the
state untouched; every path that enters the `try` passes through the
`finally`, which resets `isExecuting` to `false`. -/
def evaluateAndExecute (st : EngineState) (env : CycleEnv) :
    CycleOutcome × EngineState × List Call :=
  if st.isExecuting then
    (.nullResult, st, [])
  else
    match env.marketData with
    | .error e => (.threw e, { st with isExecuting := false }, [.collect])
    | .ok marketData =>
      match env.portfolio with
      | .error e => (.threw e, { st with isExecuting := false }, [.collect, .portfolioRead])
      | .ok _ =>
        match env.oracle with
        | .error e =>
          (.threw e, { st with isExecuting := false },
            [.collect, .portfolioRead, .oracleCall])
        | .ok none =>
          (.nullResult, { st with isExecuting := false },
            [.collect, .portfolioRead, .oracleCall])
        | .ok (some decision) =>
          if ¬validateDecision decision then
            (.nullResult, { st with isExecuting := false },
              [.collect, .portfolioRead, .oracleCall])
          else
            let step := executeDecision env decision
            (.result step.1,
             { decisionHistory := recordDecision st.decisionHistory decision marketData step.1,
               isExecuting := false },
             [.collect, .portfolioRead, .oracleCall] ++ (if step.2 then [.submit] else []))

/-- A cached market-data entry as the volatility check reads it: only the
`priceChange24h` field matters (absent on entries whose fetch failed). -/
structure CacheEntry where
  priceChange24h : Option ℚ := none
  deriving Repr, DecidableEq

/-- The `marketDataCache` object: chains to token entries, insertion-ordered
as `Object.entries` enumerates them. -/
abbrev MarketCache := List (String × List (String × CacheEntry))

/-- The per-token test inside `StrategyMonitor.checkMarketVolatility`:
`data.priceChange24h && Math.abs(data.priceChange24h) > 0.1` (a zero price
change is falsy and skipped). -/
def volEntryReason (chain token : String) (e : CacheEntry) : Option String :=
  match e.priceChange24h with
  | some pc =>
    if pc ≠ 0 ∧ mkRat 1 10 < jsAbs pc then
      some (token ++ " on " ++ chain ++ " has high volatility: "
              ++ toFixed2 (timesHundred pc) ++ "%")
    else none
  | none => none

/-- `StrategyMonitor.checkMarketVolatility`: return the first violating
(token, chain) pair's reason, or `none` when the check passes. -/
def checkMarketVolatility (cache : MarketCache) : Option String :=
  cache.findSome? (fun c => c.2.findSome? (fun t => volEntryReason c.1 t.1 t.2))

/-- The `{passed, reasons}` object returned by
`StrategyMonitor.performRiskChecks`. -/
structure RiskCheck where
  passed : Bool
  reasons : List String
  deriving Repr, DecidableEq

/-- Inputs to one `performRiskChecks` run: the gas prices of the monitored
networks as one `Promise.all` outcome, and the market-data cache. -/
structure RiskEnv where
  gasPrices : Except JsError (List ℚ)
  cache : MarketCache

/-- `StrategyMonitor.performRiskChecks`: collect a reason per over-limit gas
price, append the volatility reason when that check fails, and append nothing
for the placeholder concentration check (it always passes); `passed` is
`reasons.length === 0`. A throw inside the `try` (the gas-price fetch) is
caught and reported as the single reason `"Risk check system error"`. -/
def performRiskChecks (gasLimit : ℚ) (env : RiskEnv) : RiskCheck :=
  match env.gasPrices with
  | .error _ => { passed := false, reasons := ["Risk check system error"] }
  | .ok prices =>
    let gasReasons := prices.filterMap (fun g =>
      if gasLimit < g then some ("Gas price too high: " ++ jsNumToString g ++ " gwei")
      else none)
    let volReasons :=
      match checkMarketVolatility env.cache with
      | some r => ["High market volatility detected: " ++ r]
      | none => []
    let reasons := gasReasons ++ volReasons
    { passed := reasons.isEmpty, reasons := reasons }

/-! ### Path lemmas for one cycle of `evaluateAndExecute` -/

theorem evaluateAndExecute_busy (st : EngineState) (env : CycleEnv)
    (h : st.isExecuting = true) :
    evaluateAndExecute st env = (.nullResult, st, []) := by
  simp [evaluateAndExecute, h]

theorem evaluateAndExecute_collectErr (st : EngineState) (env : CycleEnv) (e : JsError)
    (h : st.isExecuting = false) (hm : env.marketData = .error e) :
    evaluateAndExecute st env =
      (.threw e, { st with isExecuting := false }, [.collect]) := by
  simp [evaluateAndExecute, h, hm]

theorem evaluateAndExecute_portfolioErr (st : EngineState) (env : CycleEnv)
    (e : JsError) (m : MarketSnapshot)
    (h : st.isExecuting = false) (hm : env.marketData = .ok m)
    (hp : env.portfolio = .error e) :
    evaluateAndExecute st env =
      (.threw e, { st with isExecuting := false }, [.collect, .portfolioRead]) := by
  simp [evaluateAndExecute, h, hm, hp]

theorem evaluateAndExecute_oracleErr (st : EngineState) (env : CycleEnv)
    (e : JsError) (m : MarketSnapshot) (p : Portfolio)
    (h : st.isExecuting = false) (hm : env.marketData = .ok m)
    (hp : env.portfolio = .ok p) (ho : env.oracle = .error e) :
    evaluateAndExecute st env =
      (.threw e, { st with isExecuting := false },
        [.collect, .portfolioRead, .oracleCall]) := by
  simp [evaluateAndExecute, h, hm, hp, ho]

theorem evaluateAndExecute_noDecision (st : EngineState) (env : CycleEnv)
    (m : MarketSnapshot) (p : Portfolio)
    (h : st.isExecuting = false) (hm : env.marketData = .ok m)
    (hp : env.portfolio = .ok p) (ho : env.oracle = .ok none) :
    evaluateAndExecute st env =
      (.nullResult, { st with isExecuting := false },
        [.collect, .portfolioRead, .oracleCall]) := by
  simp [evaluateAndExecute, h, hm, hp, ho]

theorem evaluateAndExecute_rejected (st : EngineState) (env : CycleEnv)
    (m : MarketSnapshot) (p : Portfolio) (d : RebalanceDecision)
    (h : st.isExecuting = false) (hm : env.marketData = .ok m)
    (hp : env.portfolio = .ok p) (ho : env.oracle = .ok (some d))
    (hv : validateDecision d = false) :
    evaluateAndExecute st env =
      (.nullResult, { st with isExecuting := false },
        [.collect, .portfolioRead, .oracleCall]) := by
  simp [evaluateAndExecute, h, hm, hp, ho, hv]

theorem evaluateAndExecute_validated (st : EngineState) (env : CycleEnv)
    (m : MarketSnapshot) (p : Portfolio) (d : RebalanceDecision)
    (h : st.isExecuting = false) (hm : env.marketData = .ok m)
    (hp : env.portfolio = .ok p) (ho : env.oracle = .ok (some d))
    (hv : validateDecision d = true) :
    evaluateAndExecute st env =
      (.result (executeDecision env d).1,
       { decisionHistory := recordDecision st.decisionHistory d m (executeDecision env d).1,
         isExecuting := false },
       [.collect, .portfolioRead, .oracleCall]
         ++ (if (executeDecision env d).2 then [.submit] else [])) := by
  simp [evaluateAndExecute, h, hm, hp, ho, hv]

theorem getStats_totalDecisions (st : EngineState) :
    (getStats st).totalDecisions = st.decisionHistory.length := rfl

/-! ### Concrete fixtures used by witnesses and counterexamples -/

/-- A validated hold decision. -/
def dHold : RebalanceDecision :=
  { action := "hold", reason := some "steady", confidence := mkRat 9 10 }

/-- A validated swap decision with amount 500. -/
def dSwap : RebalanceDecision :=
  { action := "swap", fromChain := some "ethereum", toChain := some "ethereum",
    token := some "USDC", amount := some "500", reason := some "arb",
    confidence := mkRat 9 10 }

/-- An idle engine with an empty ledger. -/
def stIdle : EngineState := { decisionHistory := [], isExecuting := false }

/-- An engine with a cycle already in flight. -/
def stBusy : EngineState := { decisionHistory := [], isExecuting := true }

/-- An environment whose collaborators all succeed and whose oracle proposes
`dSwap`. -/
def envOkSwap : CycleEnv :=
  { marketData := .ok "m", portfolio := .ok "p", oracle := .ok (some dSwap),
    executorConfigured := true,
    txOutcome := .ok { success := true, hash := "0xaa", gasUsed := 21000 },
    decisionId := "d1", now := 42 }

/-! ### Claim theorems -/

/-- Claim C1: if the orchestrator's in-flight flag is set when
`evaluateAndExecute` is invoked, the call returns `null` immediately with no
collection, oracle, or submission calls performed; and every cycle that does
start resets the in-flight flag to `false` on every exit path. -/
theorem cycle_single_flight (st : EngineState) (env : CycleEnv) :
    (st.isExecuting = true → evaluateAndExecute st env = (.nullResult, st, []))
  ∧ (st.isExecuting = false → (evaluateAndExecute st env).2.1.isExecuting = false) := by
  constructor
  · intro h
    exact evaluateAndExecute_busy st env h
  · intro h
    rcases hm : env.marketData with e | m
    · rw [evaluateAndExecute_collectErr st env e h hm]
    · rcases hp : env.portfolio with e | p
      · rw [evaluateAndExecute_portfolioErr st env e m h hm hp]
      · rcases ho : env.oracle with e | (_ | d)
        · rw [evaluateAndExecute_oracleErr st env e m p h hm hp ho]
        · rw [evaluateAndExecute_noDecision st env m p h hm hp ho]
        · rcases hv : validateDecision d with _ | _
          · rw [evaluateAndExecute_rejected st env m p d h hm hp ho hv]
          · rw [evaluateAndExecute_validated st env m p d h hm hp ho hv]

/-- Witness for C1 at concrete inputs: a busy engine skips the cycle, and an
idle engine ends its cycle with the flag reset. -/
theorem cycle_single_flight_witness :
    evaluateAndExecute stBusy envOkSwap = (.nullResult, stBusy, [])
  ∧ (evaluateAndExecute stIdle envOkSwap).2.1.isExecuting = false :=
  ⟨(cycle_single_flight stBusy envOkSwap).1 rfl,
   (cycle_single_flight stIdle envOkSwap).2 rfl⟩

/-- Claim C3: a cycle that ends before execution submission — no decision
from the oracle, a validator rejection, or a collection/portfolio/oracle
throw — creates no `DecisionRecord` and leaves `stats().total` unchanged; the
no-decision and rejection cases return `null`, while the thrown cases
propagate the error, and in every case the in-flight flag ends `false`. -/
theorem cycle_before_execution_no_record (st : EngineState) (env : CycleEnv)
    (h : st.isExecuting = false)
    (hend : (∃ e, env.marketData = .error e) ∨ (∃ e, env.portfolio = .error e)
      ∨ (∃ e, env.oracle = .error e) ∨ env.oracle = .ok none
      ∨ (∃ d, env.oracle = .ok (some d) ∧ validateDecision d = false)) :
    (evaluateAndExecute st env).2.1.decisionHistory = st.decisionHistory
  ∧ (getStats (evaluateAndExecute st env).2.1).totalDecisions = (getStats st).totalDecisions
  ∧ (evaluateAndExecute st env).2.1.isExecuting = false
  ∧ (((∃ e, env.marketData = .error e) ∨ (∃ e, env.portfolio = .error e)
        ∨ (∃ e, env.oracle = .error e)) →
      ∃ e, (evaluateAndExecute st env).1 = .threw e)
  ∧ ((env.oracle = .ok none ∨ (∃ d, env.oracle = .ok (some d) ∧ validateDecision d = false)) →
      (∀ e, env.marketData ≠ .error e) → (∀ e, env.portfolio ≠ .error e) →
      (evaluateAndExecute st env).1 = .nullResult) := by
  rcases hm : env.marketData with e | m
  · rw [evaluateAndExecute_collectErr st env e h hm]
    exact ⟨rfl, rfl, rfl, fun _ => ⟨e, rfl⟩, fun _ hne _ => (hne e rfl).elim⟩
  · rcases hp : env.portfolio with e | p
    · rw [evaluateAndExecute_portfolioErr st env e m h hm hp]
      exact ⟨rfl, rfl, rfl, fun _ => ⟨e, rfl⟩, fun _ _ hne => (hne e rfl).elim⟩
    · rcases ho : env.oracle with e | (_ | d)
      · rw [evaluateAndExecute_oracleErr st env e m p h hm hp ho]
        refine ⟨rfl, rfl, rfl, fun _ => ⟨e, rfl⟩, ?_⟩
        intro hcase _ _
        rcases hcase with hnone | ⟨d, hd, _⟩
        · exact Except.noConfusion hnone
        · exact Except.noConfusion hd
      · rw [evaluateAndExecute_noDecision st env m p h hm hp ho]
        refine ⟨rfl, rfl, rfl, ?_, fun _ _ _ => rfl⟩
        intro hcase
        rcases hcase with ⟨e, he⟩ | ⟨e, he⟩ | ⟨e, he⟩ <;> exact Except.noConfusion he
      · rcases hv : validateDecision d with _ | _
        · rw [evaluateAndExecute_rejected st env m p d h hm hp ho hv]
          refine ⟨rfl, rfl, rfl, ?_, fun _ _ _ => rfl⟩
          intro hcase
          rcases hcase with ⟨e, he⟩ | ⟨e, he⟩ | ⟨e, he⟩ <;> exact Except.noConfusion he
        · exfalso
          rcases hend with ⟨e, he⟩ | ⟨e, he⟩ | ⟨e, he⟩ | he | ⟨d0, hd0, hv0⟩
          · rw [hm] at he; cases he
          · rw [hp] at he; cases he
          · rw [ho] at he; cases he
          · rw [ho] at he; cases he
          · rw [ho] at hd0
            cases hd0
            rw [hv] at hv0; cases hv0

/-- An environment whose oracle succeeds but recommends no action. -/
def envNoDecision : CycleEnv :=
  { marketData := .ok "m", portfolio := .ok "p", oracle := .ok none,
    executorConfigured := true,
    txOutcome := .ok { success := true, hash := "0xaa", gasUsed := 21000 },
    decisionId := "d2", now := 43 }

/-- Witness for C3: with an oracle that recommends nothing, the ledger is
unchanged, the flag ends `false`, and the cycle returns `null`. -/
theorem cycle_before_execution_no_record_witness :
    (evaluateAndExecute stIdle envNoDecision).2.1.decisionHistory = stIdle.decisionHistory
  ∧ (evaluateAndExecute stIdle envNoDecision).2.1.isExecuting = false
  ∧ (evaluateAndExecute stIdle envNoDecision).1 = .nullResult := by
  have h := cycle_before_execution_no_record stIdle envNoDecision rfl
    (Or.inr (Or.inr (Or.inr (Or.inl rfl))))
  exact ⟨h.1, h.2.2.1, h.2.2.2.2 (Or.inl rfl) (fun e he => by cases he) (fun e he => by cases he)⟩

/-- Claim C10: `getStats` on an empty ledger is total — the success-rate
division is guarded, and the result is zero totals, a zero success rate and
an empty per-action count map, whatever the in-flight flag is. -/
theorem stats_empty_ledger (b : Bool) :
    getStats { decisionHistory := [], isExecuting := b } =
      { totalDecisions := 0, successfulDecisions := 0, successRate := 0,
        actionCounts := [], isExecuting := b } := by
  cases b <;> rfl

/-- The empty string parses to `NaN`. -/
theorem parseFloat?_empty : parseFloat? "" = none := rfl

/-- If the amount is present and parses to a number below 100, the engine
validator rejects, whatever the action and confidence are: a low confidence
already rejects, and otherwise either the action is outside the allowed set
(reject) or control reaches the minimum-amount guard, which fires. -/
theorem validateDecision_amount_small (d : RebalanceDecision) (s : String) (q : ℚ)
    (hamt : d.amount = some s) (hp : parseFloat? s = some q) (hq : q < 100) :
    validateDecision d = false := by
  have hsne : s.isEmpty = false := by
    cases hse : s.isEmpty
    · rfl
    · rw [(String.isEmpty_iff s).mp hse] at hp
      rw [parseFloat?_empty] at hp
      exact Option.noConfusion hp
  have hcond : (jsTruthy d.amount &&
      (match d.amount.bind parseFloat? with
       | some q => decide (q < 100)
       | none => false)) = true := by
    rw [hamt]
    simp [jsTruthy, hsne, hp, hq]
  unfold validateDecision
  by_cases hc : d.confidence < mkRat 7 10
  · rw [if_pos hc]
  · rw [if_neg hc]
    by_cases ha : (["rebalance", "hold", "bridge", "lend", "swap"].contains d.action) = true
    · rw [if_neg (not_not_intro ha), hcond, if_pos rfl]
    · rw [if_pos ha]

/-- Claim C4: for a decision whose action is `"rebalance"` or `"bridge"`,
the validation rejects it both when the amount parses to a number below 100
(`DecisionEngine.validateDecision` returns false) and when any of the source
chain, destination chain, token, or amount fields is missing
(`AIAgent.validateRebalanceDecision` returns false, so the adapter never
hands such a decision to the engine). -/
theorem validator_rebalance_bridge_rules (d : RebalanceDecision)
    (hact : d.action = "rebalance" ∨ d.action = "bridge") :
    (∀ s q, d.amount = some s → parseFloat? s = some q → q < 100 →
        validateDecision d = false)
  ∧ ((d.fromChain = none ∨ d.toChain = none ∨ d.token = none ∨ d.amount = none) →
        validateRebalanceDecision d = false) := by
  constructor
  · intro s q hamt hp hq
    exact validateDecision_amount_small d s q hamt hp hq
  · intro hmiss
    have hone : (!jsTruthy d.fromChain || !jsTruthy d.toChain
        || !jsTruthy d.token || !jsTruthy d.amount) = true := by
      rcases hmiss with h | h | h | h <;> simp [jsTruthy, h]
    unfold validateRebalanceDecision
    rw [hone]
    by_cases h1 : (d.action.isEmpty || !jsTruthy d.reason) = true
    · rw [if_pos h1]
    · rw [if_neg h1]
      by_cases h2 : d.confidence < 0 ∨ 1 < d.confidence
      · rw [if_pos h2]
      · rw [if_neg h2, if_pos hact, if_pos rfl]

/-- Witness for C4: a rebalance decision with amount `"50"` is rejected by
the engine validator, and one missing its token is rejected by the adapter. -/
theorem validator_rebalance_bridge_rules_witness :
    validateDecision
        { action := "rebalance", fromChain := some "ethereum", toChain := some "polygon",
          token := some "USDC", amount := some "50", reason := some "r",
          confidence := mkRat 9 10 } = false
  ∧ validateRebalanceDecision
        { action := "rebalance", fromChain := some "ethereum", toChain := some "polygon",
          token := none, amount := some "500", reason := some "r",
          confidence := mkRat 9 10 } = false :=
  ⟨(validator_rebalance_bridge_rules
      { action := "rebalance", fromChain := some "ethereum", toChain := some "polygon",
        token := some "USDC", amount := some "50", reason := some "r",
        confidence := mkRat 9 10 } (Or.inl rfl)).1 "50" 50 rfl (by decide) (by decide),
   (validator_rebalance_bridge_rules
      { action := "rebalance", fromChain := some "ethereum", toChain := some "polygon",
        token := none, amount := some "500", reason := some "r",
        confidence := mkRat 9 10 } (Or.inl rfl)).2 (Or.inr (Or.inr (Or.inl rfl)))⟩

/-- Claim C9: the minimum-amount rule is not restricted to `"rebalance"` and
`"bridge"`: for `"hold"`, `"lend"` or `"swap"` decisions whose amount is a
non-empty string parsing to a number below 100, `validateDecision` returns
false regardless of confidence. -/
theorem validate_min_amount_any_action (d : RebalanceDecision) (s : String) (q : ℚ)
    (_hact : d.action = "hold" ∨ d.action = "lend" ∨ d.action = "swap")
    (hamt : d.amount = some s) (_hne : s ≠ "") (hp : parseFloat? s = some q)
    (hq : q < 100) :
    validateDecision d = false :=
  validateDecision_amount_small d s q hamt hp hq

/-- Witness for C9: a high-confidence hold decision carrying amount `"50"`
is rejected. -/
theorem validate_min_amount_any_action_witness :
    validateDecision
        { action := "hold", amount := some "50", reason := some "r",
          confidence := 1 } = false :=
  validate_min_amount_any_action
    { action := "hold", amount := some "50", reason := some "r", confidence := 1 }
    "50" 50 (Or.inl rfl) rfl (by decide) (by decide) (by decide)

/-- A minimal ledger record with a distinguishing timestamp, used as concrete
ledger content. -/
def wRec (i : ℕ) : DecisionRecord :=
  { id := "", decision := dHold, executionResult := none, timestamp := i,
    marketContext := "" }

/-- A concrete 1000-record ledger whose head is `wRec 0`. -/
def wLedger : List DecisionRecord := wRec 0 :: (List.range' 1 999).map wRec

/-- A concrete execution result used when appending to the full ledger. -/
def wEr : ExecutionResult := { decisionId := "w", success := true, timestamp := 5000 }

/-- Claim C5: appending to a ledger already holding 1000 records leaves
exactly 1000 records, evicting precisely the single oldest one while keeping
the insertion order of the rest, and the evicted record (when not duplicated
elsewhere) is gone from `recent(1000)`; the eviction is performed by
`recordDecision` itself, at insertion time. -/
theorem ledger_bound_eviction (h : List DecisionRecord) (d : RebalanceDecision)
    (ctx : MarketSnapshot) (er : ExecutionResult) (r0 : DecisionRecord)
    (hlen : h.length = 1000) (_hhead : h.head? = some r0)
    (hnotin : r0 ∉ h.tail) (hner : r0 ≠ mkRecord d ctx er) :
    recordDecision h d ctx er = h.tail ++ [mkRecord d ctx er]
  ∧ (recordDecision h d ctx er).length = 1000
  ∧ r0 ∉ getDecisionHistory (recordDecision h d ctx er) 1000 := by
  have hlen1 : (h ++ [mkRecord d ctx er]).length = 1001 := by
    simp [hlen]
  have h1le : (1 : ℕ) ≤ h.length := by omega
  have heq : recordDecision h d ctx er = h.tail ++ [mkRecord d ctx er] := by
    show (if 1000 < (h ++ [mkRecord d ctx er]).length
        then List.drop ((h ++ [mkRecord d ctx er]).length - 1000) (h ++ [mkRecord d ctx er])
        else h ++ [mkRecord d ctx er]) = h.tail ++ [mkRecord d ctx er]
    rw [hlen1, if_pos (by omega)]
    have : (1001 : ℕ) - 1000 = 1 := by omega
    rw [this, List.drop_append_of_le_length h1le, List.drop_one]
  have hlen2 : (h.tail ++ [mkRecord d ctx er]).length = 1000 := by
    simp [List.length_tail, hlen]
  refine ⟨heq, by rw [heq, hlen2], ?_⟩
  rw [heq]
  unfold getDecisionHistory
  rw [if_neg (by omega), hlen2]
  have : (1000 : ℕ) - 1000 = 0 := by omega
  rw [this, List.drop_zero]
  intro hmem
  rw [List.mem_reverse] at hmem
  rcases List.mem_append.mp hmem with hin | hin
  · exact hnotin hin
  · exact hner (List.mem_singleton.mp hin)

/-- Witness for C5 on a concrete 1000-record ledger. -/
theorem ledger_bound_eviction_witness :
    recordDecision wLedger dHold "" wEr = wLedger.tail ++ [mkRecord dHold "" wEr]
  ∧ (recordDecision wLedger dHold "" wEr).length = 1000
  ∧ wRec 0 ∉ getDecisionHistory (recordDecision wLedger dHold "" wEr) 1000 :=
  ledger_bound_eviction wLedger dHold "" wEr (wRec 0)
    (by simp [wLedger])
    rfl
    (by
      intro hm
      rcases List.mem_map.mp hm with ⟨i, hi, hEq⟩
      have hts : i = 0 := by
        have := congrArg DecisionRecord.timestamp hEq
        simpa [wRec] using this
      have : 1 ≤ i := by
        rcases List.mem_range'.mp hi with ⟨j, _, hj⟩
        omega
      omega)
    (by
      intro hEq
      have := congrArg DecisionRecord.timestamp hEq
      simp [wRec, mkRecord, wEr] at this)

/-- Claim C6 counterexample: `recent(0)` on a one-record ledger returns that
record, not zero records — JavaScript `slice(-0)` is `slice(0)`, a copy of
the whole array — so the claim fails at `n = 0 < ledger size`. -/
theorem recent_zero_cex :
    getDecisionHistory [wRec 0] 0 = [wRec 0]
  ∧ (getDecisionHistory [wRec 0] 0).length ≠ 0 :=
  ⟨rfl, by decide⟩

/-- Claim C6 (amended): for every `n` with `1 ≤ n <` ledger size,
`getDecisionHistory` returns exactly the `n` most-recently-appended records
in reverse insertion order — `n` records, the `i`-th being the element at
position `length - 1 - i` of the stored (never mutated) history. -/
theorem recent_returns_newest_first (h : List DecisionRecord) (n : ℕ)
    (h1 : 1 ≤ n) (h2 : n < h.length) :
    (getDecisionHistory h n).length = n
  ∧ ∀ i, i < n → (getDecisionHistory h n)[i]? = h[h.length - 1 - i]? := by
  have hn0 : n ≠ 0 := by omega
  unfold getDecisionHistory
  rw [if_neg hn0]
  have hdlen : (h.drop (h.length - n)).length = n := by
    rw [List.length_drop]; omega
  constructor
  · rw [List.length_reverse, hdlen]
  · intro i hi
    rw [List.getElem?_reverse (by rw [hdlen]; exact hi), hdlen, List.getElem?_drop]
    congr 1
    omega

/-- A concrete three-record ledger. -/
def wHist : List DecisionRecord := [wRec 10, wRec 11, wRec 12]

/-- Witness for the amended C6 at `n = 2` on a three-record ledger. -/
theorem recent_returns_newest_first_witness :
    (getDecisionHistory wHist 2).length = 2
  ∧ (getDecisionHistory wHist 2)[1]? = wHist[wHist.length - 1 - 1]? :=
  ⟨(recent_returns_newest_first wHist 2 (by decide) (by decide)).1,
   (recent_returns_newest_first wHist 2 (by decide) (by decide)).2 1 (by decide)⟩

/-- Characterization of `executeDecision` when the submission throws: the
method's own `catch` converts the throw into a failed result carrying the
extracted message, and reports that the submission call was made. -/
theorem executeDecision_throw (env : CycleEnv) (d : RebalanceDecision) (e : JsError)
    (hhold : d.action ≠ "hold") (hex : env.executorConfigured = true)
    (htx : env.txOutcome = .error e) :
    executeDecision env d =
      ({ decisionId := env.decisionId, success := false,
         error := some e.toMessage, timestamp := env.now }, true) := by
  unfold executeDecision
  rw [if_neg hhold, htx, if_neg (by rw [hex]; exact not_not_intro rfl)]

/-- `recordDecision` is a plain append while the ledger is below its
1000-record cap. -/
theorem recordDecision_below_cap (h : List DecisionRecord) (d : RebalanceDecision)
    (ctx : MarketSnapshot) (er : ExecutionResult) (hcap : h.length < 1000) :
    recordDecision h d ctx er = h ++ [mkRecord d ctx er] := by
  show (if 1000 < (h ++ [mkRecord d ctx er]).length
      then List.drop ((h ++ [mkRecord d ctx er]).length - 1000) (h ++ [mkRecord d ctx er])
      else h ++ [mkRecord d ctx er]) = h ++ [mkRecord d ctx er]
  rw [if_neg (by simp only [List.length_append, List.length_cons, List.length_nil]; omega)]

/-- An environment whose submission rejects with `new Error("")`, an `Error`
instance carrying the empty message. -/
def envEmptyErr : CycleEnv :=
  { marketData := .ok "m", portfolio := .ok "p", oracle := .ok (some dSwap),
    executorConfigured := true, txOutcome := .error (.errObj ""),
    decisionId := "d3", now := 44 }

/-- Claim C2 counterexample: when the on-chain submission rejects with an
`Error` whose `message` is the empty string, the cycle still records a failed
result, but the captured error string is `""` — not non-empty as the claim
states. -/
theorem exec_failure_empty_message_cex :
    ((evaluateAndExecute stIdle envEmptyErr).2.1.decisionHistory.map
        (fun r => r.executionResult.map (fun er => (er.success, er.error))))
      = [some (false, some "")] := by
  decide

/-- Claim C2 (amended): for every cycle below the ledger's 1000-record cap in
which execution submission throws, a `DecisionRecord` is still appended —
`stats().total` increases by exactly 1, the new record's result has
`success = false` with the thrown error's message captured (`'Unknown error'`
for a non-`Error` throw; non-empty except for an `Error` thrown with an empty
message) — and the cycle returns that failed result instead of throwing. -/
theorem exec_failure_recorded (st : EngineState) (env : CycleEnv)
    (d : RebalanceDecision) (e : JsError) (m : MarketSnapshot) (p : Portfolio)
    (hbusy : st.isExecuting = false) (hcap : st.decisionHistory.length < 1000)
    (hm : env.marketData = .ok m) (hp : env.portfolio = .ok p)
    (ho : env.oracle = .ok (some d)) (hv : validateDecision d = true)
    (hhold : d.action ≠ "hold") (hex : env.executorConfigured = true)
    (htx : env.txOutcome = .error e) :
    evaluateAndExecute st env =
      (.result { decisionId := env.decisionId, success := false,
                 error := some e.toMessage, timestamp := env.now },
       { decisionHistory := st.decisionHistory ++
           [mkRecord d m { decisionId := env.decisionId, success := false,
                           error := some e.toMessage, timestamp := env.now }],
         isExecuting := false },
       [.collect, .portfolioRead, .oracleCall, .submit])
  ∧ (getStats (evaluateAndExecute st env).2.1).totalDecisions
      = (getStats st).totalDecisions + 1
  ∧ (e ≠ .errObj "" → e.toMessage ≠ "") := by
  have hexec := executeDecision_throw env d e hhold hex htx
  have hmain : evaluateAndExecute st env =
      (.result { decisionId := env.decisionId, success := false,
                 error := some e.toMessage, timestamp := env.now },
       { decisionHistory := st.decisionHistory ++
           [mkRecord d m { decisionId := env.decisionId, success := false,
                           error := some e.toMessage, timestamp := env.now }],
         isExecuting := false },
       [.collect, .portfolioRead, .oracleCall, .submit]) := by
    rw [evaluateAndExecute_validated st env m p d hbusy hm hp ho hv, hexec]
    rw [recordDecision_below_cap st.decisionHistory d m _ hcap]
    rfl
  refine ⟨hmain, ?_, ?_⟩
  · rw [hmain, getStats_totalDecisions, getStats_totalDecisions]
    simp
  · intro hne
    cases e with
    | errObj msg =>
      intro hmsg
      exact hne (by rw [JsError.toMessage] at hmsg; rw [hmsg])
    | nonError => intro hmsg; exact absurd hmsg (by decide)

/-- An environment whose submission rejects with `new Error("boom")`. -/
def envErrBoom : CycleEnv :=
  { marketData := .ok "m", portfolio := .ok "p", oracle := .ok (some dSwap),
    executorConfigured := true, txOutcome := .error (.errObj "boom"),
    decisionId := "d4", now := 45 }

/-- Witness for the amended C2 at a concrete failing submission. -/
theorem exec_failure_recorded_witness :
    evaluateAndExecute stIdle envErrBoom =
      (.result { decisionId := "d4", success := false, error := some "boom",
                 timestamp := 45 },
       { decisionHistory :=
           [mkRecord dSwap "m" { decisionId := "d4", success := false,
                                 error := some "boom", timestamp := 45 }],
         isExecuting := false },
       [.collect, .portfolioRead, .oracleCall, .submit])
  ∧ (getStats (evaluateAndExecute stIdle envErrBoom).2.1).totalDecisions
      = (getStats stIdle).totalDecisions + 1
  ∧ (JsError.errObj "boom" ≠ .errObj "" → (JsError.errObj "boom").toMessage ≠ "") :=
  exec_failure_recorded stIdle envErrBoom dSwap (.errObj "boom") "m" "p"
    rfl (by decide) rfl rfl rfl (by decide) (by decide) rfl rfl

/-- An environment whose submission resolves with an on-chain result whose
own `success` flag is `false` (e.g. a reverted transaction reported with its
hash). -/
def envRevert : CycleEnv :=
  { marketData := .ok "m", portfolio := .ok "p", oracle := .ok (some dSwap),
    executorConfigured := true,
    txOutcome := .ok { success := false, hash := "0xdead", gasUsed := 30000 },
    decisionId := "d5", now := 46 }

/-- Claim C7 counterexample: when the submission resolves with
`success = false`, the cycle's `ExecutionResult` has `success = false`, a
populated transaction hash and no error string — so "exactly one of the hash
(on success) or the error (on failure) is populated" fails. -/
theorem execution_result_shape_cex :
    (evaluateAndExecute stIdle envRevert).1 =
      .result { decisionId := "d5", success := false,
                transactionHash := some "0xdead", error := none,
                gasUsed := some 30000, timestamp := 46 } := by
  decide

/-- Claim C7 (amended): the `ExecutionResult` of a cycle has exactly one of
transaction hash or error populated in each of these cases — hold: success
with neither (and the record is still appended); missing executor or thrown
submission: failure with only the error; fulfilled submission: the chain
result's own `success` flag passed through with only the hash populated,
even when that flag is `false`. -/
theorem execution_result_shape (env : CycleEnv) (d : RebalanceDecision) :
    (d.action = "hold" →
      (executeDecision env d).1 =
        { decisionId := env.decisionId, success := true, timestamp := env.now })
  ∧ (d.action ≠ "hold" → env.executorConfigured = false →
      (executeDecision env d).1 =
        { decisionId := env.decisionId, success := false,
          error := some "Executor address not configured", timestamp := env.now })
  ∧ (∀ e, d.action ≠ "hold" → env.executorConfigured = true →
      env.txOutcome = .error e →
      (executeDecision env d).1 =
        { decisionId := env.decisionId, success := false,
          error := some e.toMessage, timestamp := env.now })
  ∧ (∀ tx, d.action ≠ "hold" → env.executorConfigured = true →
      env.txOutcome = .ok tx →
      (executeDecision env d).1 =
        { decisionId := env.decisionId, success := tx.success,
          transactionHash := some tx.hash, gasUsed := some tx.gasUsed,
          timestamp := env.now })
  ∧ (∀ st m p, d.action = "hold" → validateDecision d = true →
      st.isExecuting = false → env.marketData = .ok m → env.portfolio = .ok p →
      env.oracle = .ok (some d) →
      evaluateAndExecute st env =
        (.result { decisionId := env.decisionId, success := true, timestamp := env.now },
         { decisionHistory := recordDecision st.decisionHistory d m
             { decisionId := env.decisionId, success := true, timestamp := env.now },
           isExecuting := false },
         [.collect, .portfolioRead, .oracleCall])) := by
  refine ⟨?_, ?_, ?_, ?_, ?_⟩
  · intro hh
    unfold executeDecision
    rw [if_pos hh]
  · intro hh hnc
    unfold executeDecision
    rw [if_neg hh, if_pos (by rw [hnc]; exact Bool.false_ne_true)]
  · intro e hh hex htx
    rw [executeDecision_throw env d e hh hex htx]
  · intro tx hh hex htx
    unfold executeDecision
    rw [if_neg hh, htx, if_neg (by rw [hex]; exact not_not_intro rfl)]
  · intro st m p hh hv hbusy hm hp ho
    have hexec : executeDecision env d =
        ({ decisionId := env.decisionId, success := true, timestamp := env.now }, false) := by
      unfold executeDecision
      rw [if_pos hh]
    rw [evaluateAndExecute_validated st env m p d hbusy hm hp ho hv, hexec]
    rfl

/-- An environment whose oracle proposes `dHold` and whose collaborators all
succeed. -/
def envOkHold : CycleEnv :=
  { marketData := .ok "m", portfolio := .ok "p", oracle := .ok (some dHold),
    executorConfigured := true,
    txOutcome := .ok { success := true, hash := "0xbb", gasUsed := 1 },
    decisionId := "d6", now := 47 }

/-- Witness for the amended C7: a hold result with neither hash nor error
(record appended), and a fulfilled submission whose hash is passed through. -/
theorem execution_result_shape_witness :
    (executeDecision envOkHold dHold).1 =
      { decisionId := "d6", success := true, timestamp := 47 }
  ∧ (executeDecision envOkSwap dSwap).1 =
      { decisionId := "d1", success := true, transactionHash := some "0xaa",
        gasUsed := some 21000, timestamp := 42 }
  ∧ evaluateAndExecute stIdle envOkHold =
      (.result { decisionId := "d6", success := true, timestamp := 47 },
       { decisionHistory := recordDecision stIdle.decisionHistory dHold "m"
           { decisionId := "d6", success := true, timestamp := 47 },
         isExecuting := false },
       [.collect, .portfolioRead, .oracleCall]) :=
  ⟨(execution_result_shape envOkHold dHold).1 rfl,
   (execution_result_shape envOkSwap dSwap).2.2.2.1
     { success := true, hash := "0xaa", gasUsed := 21000 } (by decide) rfl rfl,
   (execution_result_shape envOkHold dHold).2.2.2.2 stIdle "m" "p"
     rfl (by decide) rfl rfl rfl rfl⟩

/-- Claim C8: with the default 100-gwei ceiling, a monitored network
reporting gas price 150 makes `performRiskChecks` fail with the reason
`"Gas price too high: 150 gwei"` included, and a simultaneously failing
volatility check contributes its own reason to the same returned list — the
checks are collected, not short-circuited. -/
theorem risk_gate_gas_and_collection (env : RiskEnv) (prices : List ℚ)
    (hok : env.gasPrices = .ok prices) (hmem : (150 : ℚ) ∈ prices) :
    (performRiskChecks 100 env).passed = false
  ∧ "Gas price too high: 150 gwei" ∈ (performRiskChecks 100 env).reasons
  ∧ (∀ r, checkMarketVolatility env.cache = some r →
      ("High market volatility detected: " ++ r) ∈ (performRiskChecks 100 env).reasons) := by
  have hgas : "Gas price too high: 150 gwei" ∈ prices.filterMap (fun g =>
      if (100 : ℚ) < g then some ("Gas price too high: " ++ jsNumToString g ++ " gwei")
      else none) :=
    List.mem_filterMap.mpr ⟨150, hmem, by decide⟩
  unfold performRiskChecks
  rw [hok]
  refine ⟨?_, ?_, ?_⟩
  · have hne : (prices.filterMap (fun g =>
        if (100 : ℚ) < g then some ("Gas price too high: " ++ jsNumToString g ++ " gwei")
        else none) ++
        match checkMarketVolatility env.cache with
        | some r => ["High market volatility detected: " ++ r]
        | none => []) ≠ [] :=
      List.ne_nil_of_mem (List.mem_append_left _ hgas)
    exact Bool.eq_false_iff.mpr (fun hie => hne (List.isEmpty_iff.mp hie))
  · exact List.mem_append_left _ hgas
  · intro r hr
    rw [hr]
    exact List.mem_append_right _ (List.mem_singleton.mpr rfl)

/-- A concrete market-data cache holding one token whose 24-hour price change
is `0.15`. -/
def wCache : MarketCache :=
  [("ethereum", [("WETH", { priceChange24h := some (mkRat 15 100) })])]

/-- Concrete risk-gate inputs: gas prices 150 and 30, volatile cache. -/
def envRisk : RiskEnv := { gasPrices := .ok [150, 30], cache := wCache }

/-- Witness for C8: both the gas reason and the volatility reason appear in
one returned reason list, and the check fails. -/
theorem risk_gate_gas_and_collection_witness :
    (performRiskChecks 100 envRisk).passed = false
  ∧ "Gas price too high: 150 gwei" ∈ (performRiskChecks 100 envRisk).reasons
  ∧ ("High market volatility detected: WETH on ethereum has high volatility: 15.00%")
      ∈ (performRiskChecks 100 envRisk).reasons :=
  ⟨(risk_gate_gas_and_collection envRisk [150, 30] rfl (by decide)).1,
   (risk_gate_gas_and_collection envRisk [150, 30] rfl (by decide)).2.1,
   (risk_gate_gas_and_collection envRisk [150, 30] rfl (by decide)).2.2
     "WETH on ethereum has high volatility: 15.00%" (by decide)⟩

end ChainMind
